import Mathlib

/-!
Shallow embedding of the aloy-engine event-dispatch core:
the type-erased payload container (`DynamicStore`), the event envelope,
the per-name dispatcher with bounded-retry locking (`EventDispatcher`),
the process-wide queue (`emit` / `get_events`), and the `Application`
tick-loop exit protocol.

Locks are modelled by explicit availability: a `Nat → Bool` function gives
the outcome of the i-th `try_lock` attempt of an operation (true = acquired).
The mpsc channel is modelled as an explicit `List` threaded through
`emit` / `get_events`. A Rust panic inside the internal exit handler is
modelled as the `none` result of `exitHandlerRun`.
-/

namespace AloyEngine

/-- Closed universe of concrete payload types the engine stores in its
type-erased container; stands for Rust `TypeId` of those types. -/
inductive Ty where
  | int
  | intList
  | str
  | exitReason
deriving DecidableEq

/-- Modelled from the spec: the termination reason of
`core/runner/exit_handlers.rs` (that file is not among the provided
sources) — "a closed set of outcomes — {Normal, Error(code)}", with the
variant spellings `NORMAL` / `ERROR(code)` used by `applications.rs`. -/
inductive ExitReason where
  | NORMAL
  | ERROR (code : Int)
deriving DecidableEq

/-- Interpretation of the payload-type universe. -/
def Ty.interp : Ty → Type
  | .int => Int
  | .intList => List Int
  | .str => String
  | .exitReason => ExitReason

/-- `DynamicStore` of `event.rs`: owns one type-erased value
(`Box<dyn Any>`), remembered together with its concrete type. -/
structure DynamicStore where
  ty : Ty
  value : ty.interp

/-- `DynamicStore::get_ref::<T>` of `event.rs`: `downcast_ref` — the stored
value is returned only when the requested type equals the stored concrete
type; retrieval is pure (total, no mutation of the store). -/
def DynamicStore.get_ref (u : Ty) (d : DynamicStore) : Option u.interp :=
  if h : d.ty = u then some (h ▸ d.value) else none

/-- The `Event` trait object: a name (`get_name`) and an optional
type-erased payload (`get_data`). -/
structure EventModel where
  name : String
  data : Option DynamicStore

/-- `ApplicationEvents` of `engine_events/application_events.rs`. -/
inductive ApplicationEvents where
  | Exit (r : ExitReason)
  | ExampleEvent
  | ExampleEventWithData (x y : Int)

/-- `ApplicationEvents::get_name`. -/
def ApplicationEvents.get_name : ApplicationEvents → String
  | .ExampleEvent => "ExampleEvent"
  | .ExampleEventWithData _ _ => "ExampleEventWithData"
  | .Exit _ => "Exit"

/-- `ApplicationEvents::get_data`: `ExampleEventWithData(x, y)` wraps the
two-element vector `[x, y]`; `Exit(r)` wraps a clone of the reason;
`ExampleEvent` carries nothing. -/
def ApplicationEvents.get_data : ApplicationEvents → Option DynamicStore
  | .ExampleEventWithData x y => some ⟨Ty.intList, [x, y]⟩
  | .Exit r => some ⟨Ty.exitReason, r⟩
  | .ExampleEvent => none

/-- View of an `ApplicationEvents` value through the `Event` trait. -/
def ApplicationEvents.toEvent (a : ApplicationEvents) : EventModel :=
  ⟨a.get_name, a.get_data⟩

/-- `EventQueueErrors` of `event_queue.rs`; the emit error carries the
rejected event back (`SendError`). -/
inductive EventQueueErrors where
  | UnableToEmitToEventQueue (e : EventModel)
  | UnableToFetchEventsFromQueue
  | EmptyQueue

/-- `EventQueue::emit`: `sender.send` succeeds exactly when the receiver
endpoint is alive, appending the boxed event to the channel (FIFO). -/
def emit (aliveReceiver : Bool) (queue : List EventModel) (e : EventModel) :
    Except EventQueueErrors (List EventModel) :=
  if aliveReceiver then .ok (queue ++ [e])
  else .error (.UnableToEmitToEventQueue e)

/-- Sequential emissions by a single producer, each through `emit`. -/
def emitSeq (aliveReceiver : Bool) (queue : List EventModel) :
    List EventModel → Except EventQueueErrors (List EventModel)
  | [] => .ok queue
  | e :: es =>
    match emit aliveReceiver queue e with
    | .ok q => emitSeq aliveReceiver q es
    | .error err => .error err

/-- `EventQueue::get_events`: one `try_lock` on the receiver (attempt 0 of
`avail`); on failure the contention error, the channel untouched. On
success, `try_recv` in a loop moves every pending event, in channel order,
into the result; an empty result becomes the `EmptyQueue` signal. Returns
the result together with the channel contents afterwards. -/
def get_events (avail : Nat → Bool) (queue : List EventModel) :
    Except EventQueueErrors (List EventModel) × List EventModel :=
  if avail 0 then
    if queue.isEmpty then (.error .EmptyQueue, queue)
    else (.ok queue, [])
  else (.error .UnableToFetchEventsFromQueue, queue)

/-- `EventDispatcherErrorss` sole variant, returned both by
`add_handlers` and by `dispatch` on lock exhaustion. -/
inductive EventDispatcherErrors where
  | UnableToAddHandler
deriving DecidableEq

/-- `EventDispatcher` of `event_dispatcher.rs`: an immutable event name and
an ordered list of handler callbacks. A callback takes the event by
reference and transforms an ambient state `σ` (the shared mutable data the
real closures capture). -/
structure EventDispatcher (σ : Type) where
  event_name : String
  handlers : List (EventModel → σ → σ)

/-- The bounded-retry `try_lock` loop shared by `add_handlers` and
`dispatch`: attempt `counter` consults `avail counter`; on failure, a
counter equal to 4 gives up, otherwise the counter is incremented and the
loop continues. `fuel` is an upper bound on remaining iterations making the
recursion structural; entered with fuel 5, the fuel never runs out before
the `counter == 4` exit. Returns the index of the successful attempt. -/
def tryLockGo (avail : Nat → Bool) : Nat → Nat → Option Nat
  | _, 0 => none
  | counter, fuel + 1 =>
    if avail counter then some counter
    else if counter == 4 then none
    else tryLockGo avail (counter + 1) fuel

/-- The retry loop as entered: counter 0, at most five attempts. -/
def tryLock (avail : Nat → Bool) : Option Nat :=
  tryLockGo avail 0 5

/-- `EventDispatcher::add_handlers`: under the bounded-retry policy,
acquiring the handler-list lock appends the callback (order preserved);
exhaustion yields `UnableToAddHandler`. -/
def EventDispatcher.add_handlers {σ : Type} (avail : Nat → Bool)
    (d : EventDispatcher σ) (cb : EventModel → σ → σ) :
    Except EventDispatcherErrors (EventDispatcher σ) :=
  match tryLock avail with
  | some _ => .ok ⟨d.event_name, d.handlers ++ [cb]⟩
  | none => .error .UnableToAddHandler

/-- The `for_each` over the point-in-time copy of the handler list:
invokes every handler once, synchronously, in list order. -/
def runHandlers {σ : Type} (e : EventModel)
    (hs : List (EventModel → σ → σ)) (s : σ) : σ :=
  hs.foldl (fun st h => h e st) s

/-- `EventDispatcher::dispatch`: a name mismatch is `Ok(false)` with no
handler invocation; otherwise the same bounded-retry lock policy guards a
pass over the (cloned) handler list, yielding `Ok(true)`; exhaustion
yields the dispatcher error. -/
def EventDispatcher.dispatch {σ : Type} (avail : Nat → Bool)
    (d : EventDispatcher σ) (e : EventModel) (s : σ) :
    Except EventDispatcherErrors (Bool × σ) :=
  if d.event_name ≠ e.name then .ok (false, s)
  else
    match tryLock avail with
    | some _ => .ok (true, runHandlers e d.handlers s)
    | none => .error .UnableToAddHandler

/-- `Application` of `core/runner/applications.rs`: its owned collection of
dispatcher instances (the exit flag is threaded separately, as handler
state). -/
structure Application (σ : Type) where
  dispatchers : List (EventDispatcher σ)

/-- `Application::on_event`: constructs a fresh dispatcher for the name,
registers the single callback on it, and appends the dispatcher to the
collection; a registration failure is surfaced, leaving the collection
unchanged. -/
def Application.on_event {σ : Type} (avail : Nat → Bool) (app : Application σ)
    (event_name : String) (cb : EventModel → σ → σ) :
    Except EventDispatcherErrors (Application σ) :=
  match EventDispatcher.add_handlers avail ⟨event_name, []⟩ cb with
  | .ok d => .ok ⟨app.dispatchers ++ [d]⟩
  | .error err => .error err

/-- `Application::dispatch`: offers the event to every owned dispatcher in
order; a dispatcher-level error is logged and skipped, leaving the state
as it was before that dispatcher. -/
def Application.dispatch {σ : Type} (avail : Nat → Bool) (app : Application σ)
    (e : EventModel) (s : σ) : σ :=
  app.dispatchers.foldl
    (fun st d =>
      match EventDispatcher.dispatch avail d e st with
      | .ok r => r.2
      | .error _ => st) s

/-- Body of the internal exit handler closure registered by
`Application::initalize`: `e.get_data().unwrap()` (a missing payload
panics — modelled as `none`), then `get_ref::<ExitReason>`; when the
reason is present and the exit-flag lock is free, the flag is replaced by
the reason; otherwise the flag is left as it was (best effort). `flagLock`
is the outcome of the `try_lock` on the shared exit flag. -/
def exitHandlerRun (flagLock : Bool) (e : EventModel)
    (flag : Option ExitReason) : Option (Option ExitReason) :=
  match e.data with
  | none => none
  | some store =>
    match store.get_ref Ty.exitReason with
    | some r => if flagLock then some (some r) else some flag
    | none => some flag

/-- The exit handler as a dispatcher callback. Its state is
`Option (Option ExitReason)`: the outer layer records whether the handler
has panicked (`none`), the inner layer is the shared exit flag. -/
def exitCb (flagLock : Bool) :
    EventModel → Option (Option ExitReason) → Option (Option ExitReason) :=
  fun e s => s.bind (exitHandlerRun flagLock e)

/-- `Application::initalize`: registers the internal exit handler under the
event name `"Exit"` via `on_event`. -/
def initalize (avail : Nat → Bool) (flagLock : Bool)
    (app : Application (Option (Option ExitReason))) :
    Except EventDispatcherErrors (Application (Option (Option ExitReason))) :=
  Application.on_event avail app "Exit" (exitCb flagLock)

/-- The exit check at the end of each `Application::run` tick: a `try_lock`
on the exit flag (`checkLock`); when acquired, `take()` empties the flag
and a present reason terminates the process — status 0 for `NORMAL`, the
carried code for `ERROR`. Returns the exit status (when the process
terminates) and the flag afterwards. -/
def exitCheck (checkLock : Bool) (flag : Option ExitReason) :
    Option Int × Option ExitReason :=
  if checkLock then
    match flag with
    | some .NORMAL => (some 0, none)
    | some (.ERROR code) => (some code, none)
    | none => (none, none)
  else (none, flag)

/-- A lock whose every acquisition attempt succeeds. -/
def freeLock : Nat → Bool := fun _ => true

/-- A lock whose every acquisition attempt fails (already held). -/
def heldLock : Nat → Bool := fun _ => false

/-- The concrete counter-increment callbacks of the dispatch example. -/
def addK (k : Nat) : EventModel → Nat → Nat := fun _ s => s + k

/-- Callbacks that append their own index to a trace, witnessing
invocation order and multiplicity. -/
def traceHandlers (n : Nat) : List (EventModel → List Nat → List Nat) :=
  (List.range n).map (fun k => fun _ s => s ++ [k])

/-! ## Helper lemmas -/

/-- Emission is total when the receiver is alive and appends in order. -/
theorem emitSeq_ok (es : List EventModel) :
    ∀ q : List EventModel, emitSeq true q es = .ok (q ++ es) := by
  induction es with
  | nil => intro q; simp [emitSeq]
  | cons e t ih =>
    intro q
    simp [emitSeq, emit, ih (q ++ [e])]

/-- The retry loop fails when none of the five attempts acquires. -/
theorem tryLock_none_of_all_fail (avail : Nat → Bool)
    (h : ∀ i, i < 5 → avail i = false) : tryLock avail = none := by
  simp [tryLock, tryLockGo, h 0 (by norm_num), h 1 (by norm_num),
    h 2 (by norm_num), h 3 (by norm_num), h 4 (by norm_num)]

/-- The retry loop succeeds when some of the five attempts acquires. -/
theorem tryLock_some_of_exists (avail : Nat → Bool)
    (h : ∃ i, i < 5 ∧ avail i = true) : ∃ j, tryLock avail = some j := by
  by_cases h0 : avail 0 = true
  · exact ⟨0, by simp [tryLock, tryLockGo, h0]⟩
  by_cases h1 : avail 1 = true
  · exact ⟨1, by simp [tryLock, tryLockGo, h0, h1]⟩
  by_cases h2 : avail 2 = true
  · exact ⟨2, by simp [tryLock, tryLockGo, h0, h1, h2]⟩
  by_cases h3 : avail 3 = true
  · exact ⟨3, by simp [tryLock, tryLockGo, h0, h1, h2, h3]⟩
  by_cases h4 : avail 4 = true
  · exact ⟨4, by simp [tryLock, tryLockGo, h0, h1, h2, h3, h4]⟩
  obtain ⟨i, hi, ha⟩ := h
  interval_cases i <;> simp_all

/-- Trace callbacks record exactly the handler list, in order. -/
theorem runHandlers_trace (f : EventModel) (l : List Nat) :
    ∀ acc : List Nat,
      runHandlers f (l.map (fun k => fun _ s => s ++ [k])) acc = acc ++ l := by
  induction l with
  | nil => intro acc; simp [runHandlers]
  | cons k t ih =>
    intro acc
    simp only [List.map_cons, runHandlers, List.foldl_cons]
    have := ih (acc ++ [k])
    simp [runHandlers] at this
    simp [this]

/-! ## Claims -/

/-- C2: events e1..en emitted sequentially by a single producer into an
empty queue are returned by one subsequent successful drain exactly in
emission order — none lost, duplicated, or reordered. -/
theorem single_producer_fifo (es : List EventModel) (h : es ≠ []) :
    emitSeq true [] es = .ok es ∧ get_events freeLock es = (.ok es, []) := by
  constructor
  · simpa using emitSeq_ok es []
  · cases es with
    | nil => exact absurd rfl h
    | cons e t => simp [get_events, freeLock]

theorem single_producer_fifo_witness :
    emitSeq true [] [⟨"A", none⟩, ⟨"B", none⟩] =
      .ok [⟨"A", none⟩, ⟨"B", none⟩] ∧
    get_events freeLock [⟨"A", none⟩, ⟨"B", none⟩] =
      (.ok [⟨"A", none⟩, ⟨"B", none⟩], []) :=
  single_producer_fifo [⟨"A", none⟩, ⟨"B", none⟩] (by simp)

/-- C6: draining with the lock acquired and nothing pending returns the
distinct `EmptyQueue` signal, and a successful drain result is never the
empty sequence. -/
theorem drain_empty_signal :
    (∀ avail : Nat → Bool, avail 0 = true →
      get_events avail [] = (.error .EmptyQueue, [])) ∧
    (∀ (avail : Nat → Bool) (q res rem : List EventModel),
      get_events avail q = (.ok res, rem) → res ≠ []) := by
  constructor
  · intro avail h
    simp [get_events, h]
  · intro avail q res rem h
    by_cases ha : avail 0 = true
    · cases q with
      | nil => simp [get_events, ha] at h
      | cons e t =>
        simp [get_events, ha] at h
        simp [← h.1]
    · simp [get_events, ha] at h

theorem drain_empty_signal_witness :
    get_events freeLock [] = (.error .EmptyQueue, []) ∧
    ([⟨"A", none⟩] : List EventModel) ≠ [] :=
  ⟨drain_empty_signal.1 freeLock rfl,
   drain_empty_signal.2 freeLock [⟨"A", none⟩] [⟨"A", none⟩] [] rfl⟩

/-- C7: the drain makes exactly one lock attempt — attempt 0 failing gives
the contention error with the queue unchanged, and the drain's outcome
depends only on attempt 0 (no retry ever consulted). -/
theorem drain_single_attempt (avail avail2 : Nat → Bool)
    (q : List EventModel) :
    (avail 0 = false →
      get_events avail q = (.error .UnableToFetchEventsFromQueue, q)) ∧
    (avail 0 = avail2 0 → get_events avail q = get_events avail2 q) := by
  constructor
  · intro h
    simp [get_events, h]
  · intro h
    unfold get_events
    rw [h]

theorem drain_single_attempt_witness :
    get_events heldLock [⟨"A", none⟩] =
      (.error .UnableToFetchEventsFromQueue, [⟨"A", none⟩]) ∧
    get_events heldLock [⟨"A", none⟩] =
      get_events (fun i => decide (0 < i)) [⟨"A", none⟩] :=
  ⟨(drain_single_attempt heldLock heldLock [⟨"A", none⟩]).1 rfl,
   (drain_single_attempt heldLock (fun i => decide (0 < i))
      [⟨"A", none⟩]).2 rfl⟩

/-- C8: a payload constructed from a value of concrete type `t` yields the
stored value for `get_ref` at `t` and nothing at any distinct type `u`;
retrieval is a pure total function (no panic, no mutation). -/
theorem get_ref_typed (t u : Ty) (v : t.interp) (h : u ≠ t) :
    (DynamicStore.mk t v).get_ref t = some v ∧
    (DynamicStore.mk t v).get_ref u = none := by
  constructor
  · simp [DynamicStore.get_ref]
  · unfold DynamicStore.get_ref
    rw [dif_neg]
    exact fun hc => h hc.symm

theorem get_ref_typed_witness :
    (DynamicStore.mk Ty.int (7 : Int)).get_ref Ty.int = some (7 : Int) ∧
    (DynamicStore.mk Ty.int (7 : Int)).get_ref Ty.str = none :=
  get_ref_typed Ty.int Ty.str (7 : Int) (by decide)

/-- C3: when every lock attempt fails, `add_handlers` gives up after its
bounded retries and returns `UnableToAddHandler` instead of blocking —
in particular while the handler-list lock is already held by the same
logical operation; when some of the five attempts acquires the lock, the
callback is appended and success returned. -/
theorem add_handlers_bounded_retry {σ : Type} (avail : Nat → Bool)
    (d : EventDispatcher σ) (cb : EventModel → σ → σ) :
    ((∀ i, i < 5 → avail i = false) →
      EventDispatcher.add_handlers avail d cb = .error .UnableToAddHandler) ∧
    ((∃ i, i < 5 ∧ avail i = true) →
      EventDispatcher.add_handlers avail d cb =
        .ok ⟨d.event_name, d.handlers ++ [cb]⟩) := by
  constructor
  · intro h
    simp [EventDispatcher.add_handlers, tryLock_none_of_all_fail avail h]
  · intro h
    obtain ⟨j, hj⟩ := tryLock_some_of_exists avail h
    simp [EventDispatcher.add_handlers, hj]

theorem add_handlers_bounded_retry_witness :
    EventDispatcher.add_handlers heldLock
      (⟨"X", []⟩ : EventDispatcher Nat) (addK 1) =
      .error .UnableToAddHandler ∧
    EventDispatcher.add_handlers freeLock
      (⟨"X", []⟩ : EventDispatcher Nat) (addK 1) = .ok ⟨"X", [addK 1]⟩ :=
  ⟨(add_handlers_bounded_retry heldLock ⟨"X", []⟩ (addK 1)).1
      (fun _ _ => rfl),
   (add_handlers_bounded_retry freeLock ⟨"X", []⟩ (addK 1)).2
      ⟨0, by norm_num, rfl⟩⟩

/-- C4: a dispatcher given an event whose name differs from its own
returns `Ok(false)` and invokes no handler (the state is untouched); since
`dispatch` is the only operation that invokes handlers, a dispatcher only
ever invokes handlers for events whose name equals its own. -/
theorem dispatch_name_mismatch {σ : Type} (avail : Nat → Bool)
    (d : EventDispatcher σ) (e : EventModel) (s : σ)
    (h : e.name ≠ d.event_name) :
    EventDispatcher.dispatch avail d e s = .ok (false, s) := by
  unfold EventDispatcher.dispatch
  rw [if_pos (Ne.symm h)]

theorem dispatch_name_mismatch_witness :
    EventDispatcher.dispatch heldLock
      (⟨"X", [addK 1]⟩ : EventDispatcher Nat) ⟨"Y", none⟩ 0 =
      .ok (false, 0) :=
  dispatch_name_mismatch heldLock ⟨"X", [addK 1]⟩ ⟨"Y", none⟩ 0 (by decide)

/-- C5: a matching, successful dispatch invokes every registered handler
exactly once, synchronously, in registration order, and returns
`Ok(true)`: generally the result state is the in-order fold of the handler
list; trace callbacks record exactly the indices 0..n-1 in order; and the
three counter callbacks +1, +2, +3, registered in that order through
`add_handlers`, leave a zero counter at exactly 6. -/
theorem dispatch_match_in_order (σ : Type) (d : EventDispatcher σ)
    (e : EventModel) (s : σ) (n : Nat) (f : EventModel)
    (hmatch : d.event_name = e.name) :
    EventDispatcher.dispatch freeLock d e s =
      .ok (true, runHandlers e d.handlers s) ∧
    EventDispatcher.dispatch freeLock ⟨f.name, traceHandlers n⟩ f [] =
      .ok (true, List.range n) ∧
    (Except.bind
      (EventDispatcher.add_handlers freeLock
        (⟨"X", []⟩ : EventDispatcher Nat) (addK 1)) fun d1 =>
     Except.bind (EventDispatcher.add_handlers freeLock d1 (addK 2)) fun d2 =>
     Except.bind (EventDispatcher.add_handlers freeLock d2 (addK 3)) fun d3 =>
     EventDispatcher.dispatch freeLock d3 ⟨"X", none⟩ 0) = .ok (true, 6) := by
  refine ⟨?_, ?_, rfl⟩
  · unfold EventDispatcher.dispatch
    rw [if_neg (by simp [hmatch]), tryLock]
    simp [tryLockGo, freeLock]
  · unfold EventDispatcher.dispatch
    rw [if_neg (by simp), tryLock]
    simp only [tryLockGo, freeLock, if_true]
    rw [traceHandlers, runHandlers_trace f (List.range n) []]
    simp

theorem dispatch_match_in_order_witness :
    EventDispatcher.dispatch freeLock
      (⟨"E", [addK 5]⟩ : EventDispatcher Nat) ⟨"E", none⟩ 0 =
      .ok (true, 5) ∧
    EventDispatcher.dispatch freeLock ⟨"T", traceHandlers 2⟩ ⟨"T", none⟩ [] =
      .ok (true, [0, 1]) ∧
    (Except.bind
      (EventDispatcher.add_handlers freeLock
        (⟨"X", []⟩ : EventDispatcher Nat) (addK 1)) fun d1 =>
     Except.bind (EventDispatcher.add_handlers freeLock d1 (addK 2)) fun d2 =>
     Except.bind (EventDispatcher.add_handlers freeLock d2 (addK 3)) fun d3 =>
     EventDispatcher.dispatch freeLock d3 ⟨"X", none⟩ 0) = .ok (true, 6) :=
  dispatch_match_in_order Nat ⟨"E", [addK 5]⟩ ⟨"E", none⟩ 0 2 ⟨"T", none⟩ rfl

/-- C9: a successful `on_event` appends exactly one new dispatcher; two
registrations under the same event name yield two independent dispatcher
instances, each holding only its own callback; dispatching one matching
event through the Application then invokes the handlers of both. -/
theorem on_event_independent_dispatchers (σ : Type) (avail : Nat → Bool)
    (app : Application σ) (nm : String) (cb cb1 cb2 : EventModel → σ → σ)
    (e : EventModel) (s : σ) (hl : ∃ i, i < 5 ∧ avail i = true)
    (h : e.name = nm) :
    Application.on_event avail app nm cb =
      .ok ⟨app.dispatchers ++ [⟨nm, [cb]⟩]⟩ ∧
    Except.bind (Application.on_event freeLock app nm cb1)
      (fun a => Application.on_event freeLock a nm cb2) =
      .ok ⟨app.dispatchers ++ [⟨nm, [cb1]⟩, ⟨nm, [cb2]⟩]⟩ ∧
    Application.dispatch freeLock ⟨[⟨nm, [cb1]⟩, ⟨nm, [cb2]⟩]⟩ e s =
      cb2 e (cb1 e s) := by
  obtain ⟨j, hj⟩ := tryLock_some_of_exists avail hl
  refine ⟨?_, ?_, ?_⟩
  · simp [Application.on_event, EventDispatcher.add_handlers, hj]
  · simp [Application.on_event, EventDispatcher.add_handlers, tryLock,
      tryLockGo, freeLock, Except.bind]
  · simp [Application.dispatch, EventDispatcher.dispatch, h, tryLock,
      tryLockGo, freeLock, runHandlers]

theorem on_event_independent_dispatchers_witness :
    Application.on_event freeLock (⟨[]⟩ : Application Nat) "Dup" (addK 1) =
      .ok ⟨[⟨"Dup", [addK 1]⟩]⟩ ∧
    Except.bind
      (Application.on_event freeLock (⟨[]⟩ : Application Nat) "Dup" (addK 1))
      (fun a => Application.on_event freeLock a "Dup" (addK 2)) =
      .ok ⟨[⟨"Dup", [addK 1]⟩, ⟨"Dup", [addK 2]⟩]⟩ ∧
    Application.dispatch freeLock
      ⟨[⟨"Dup", [addK 1]⟩, ⟨"Dup", [addK 2]⟩]⟩ ⟨"Dup", none⟩ 0 = 3 :=
  on_event_independent_dispatchers Nat freeLock ⟨[]⟩ "Dup" (addK 1) (addK 1)
    (addK 2) ⟨"Dup", none⟩ 0 ⟨0, by norm_num, rfl⟩ rfl

/-- C1: with the internal exit handler registered by initialization and
the exit-signal lock free, dispatching an `Exit` event carrying
`ERROR c` through the Application stores `ERROR c` in the exit signal
(likewise `NORMAL` stores `NORMAL`), and the tick-loop exit check on a set
signal terminates the process: status `c` for `ERROR c`, status 0 for
`NORMAL`. -/
theorem exit_protocol (c : Int) (flag0 : Option ExitReason) :
    initalize freeLock true ⟨[]⟩ = .ok ⟨[⟨"Exit", [exitCb true]⟩]⟩ ∧
    Application.dispatch freeLock ⟨[⟨"Exit", [exitCb true]⟩]⟩
      (ApplicationEvents.toEvent (.Exit (.ERROR c))) (some flag0) =
      some (some (.ERROR c)) ∧
    Application.dispatch freeLock ⟨[⟨"Exit", [exitCb true]⟩]⟩
      (ApplicationEvents.toEvent (.Exit .NORMAL)) (some flag0) =
      some (some .NORMAL) ∧
    exitCheck true (some (.ERROR c)) = (some c, none) ∧
    exitCheck true (some .NORMAL) = (some 0, none) :=
  ⟨rfl, rfl, rfl, rfl, rfl⟩

/-- C10: the internal exit handler unconditionally unwraps the event's
payload — on any event whose `get_data` is `None` it panics (modelled as
the `none` outcome); the failure branch is unreachable for events built
from `ApplicationEvents::Exit`, which always carry the reason as
payload. -/
theorem exit_handler_unwrap (lf : Bool) (e : EventModel)
    (flag : Option ExitReason) (r : ExitReason)
    (hname : e.name = "Exit") (hdata : e.data = none) :
    exitHandlerRun lf e flag = none ∧
    ApplicationEvents.get_data (.Exit r) = some ⟨Ty.exitReason, r⟩ ∧
    exitHandlerRun lf (ApplicationEvents.toEvent (.Exit r)) flag ≠ none := by
  refine ⟨?_, rfl, ?_⟩
  · simp [exitHandlerRun, hdata]
  · cases lf <;>
      simp [exitHandlerRun, ApplicationEvents.toEvent,
        ApplicationEvents.get_data, DynamicStore.get_ref]

theorem exit_handler_unwrap_witness :
    exitHandlerRun true ⟨"Exit", none⟩ none = none ∧
    ApplicationEvents.get_data (.Exit .NORMAL) =
      some ⟨Ty.exitReason, .NORMAL⟩ ∧
    exitHandlerRun true
      (ApplicationEvents.toEvent (.Exit .NORMAL)) none ≠ none :=
  exit_handler_unwrap true ⟨"Exit", none⟩ none .NORMAL rfl rfl

end AloyEngine
